import Mathlib

/-!
Verification of the frame-acquisition and object-aggregation pipeline of
`frigate/video.py` (single-camera video pipeline).

Conventions of the shallow embedding:
* Python floats (wall-clock timestamps, detection scores, normalized box
  coordinates) are modelled as exact rationals `ℚ`; every comparison the
  code performs on them is order-exact, so no rounding issue is hidden.
* Python `int(x)` truncates toward zero; `pyInt` reproduces that on `ℚ`.
* Lock-protected critical sections (`with self.frame_lock: ...`) are modelled
  as atomic state transitions: a trace is a sequence of whole critical
  sections, which is exactly the set of interleavings the mutex permits.
* A numpy raster is modelled as its flat byte list (`Frame`); the mask is a
  list of rows of byte values.
-/

/-- A raw raster frame: the flat byte contents of the numpy array. -/
abbrev Frame := List ℕ

/-- Python `int(q)` on a rational: truncation toward zero. -/
def pyInt (q : ℚ) : ℤ :=
  if 0 ≤ q then ⌊q⌋ else ⌈q⌉

/-- Python list indexing `l[i]` with negative-index wrap-around; out-of-range
accesses (an `IndexError` in Python) fall back to `d`, a case none of the
theorems below reaches. -/
def pyIndex (l : List α) (d : α) (i : ℤ) : α :=
  if i < 0 then l.getD (i + l.length).toNat d else l.getD i.toNat d

/-! ## SharedFrameBuffer (`Camera.current_frame` / `Camera.frame_time`,
`CameraCapture.run` lines 102-109, `Camera.get_current_frame_with_objects`
lines 321-323)

The buffer state is the raster together with its timestamp.  The capture
thread's critical section sets the timestamp and overwrites the raster while
holding `frame_lock`; every reader copies both fields under the same lock.
Because each operation holds the lock for its whole duration, an execution is
a sequence of atomic writes and reads. -/

structure SharedFrameBuffer where
  raster : Frame
  timestamp : ℚ
deriving DecidableEq

/-- The capture thread's critical section (lines 102-109): store the new
timestamp and copy the raster into the shared array, atomically. -/
def writeFrame (_buf : SharedFrameBuffer) (raster : Frame) (t : ℚ) : SharedFrameBuffer :=
  { raster := raster, timestamp := t }

/-- A reader's critical section (lines 321-323): copy out the raster and the
timestamp, atomically. -/
def readCopy (buf : SharedFrameBuffer) : Frame × ℚ :=
  (buf.raster, buf.timestamp)

/-- Run a sequence of capture-thread writes against the buffer. -/
def runWrites (buf : SharedFrameBuffer) (ws : List (Frame × ℚ)) : SharedFrameBuffer :=
  ws.foldl (fun b w => writeFrame b w.1 w.2) buf

/-! ## RecentFrameWindow (`FrameTracker.run`, lines 26-48)

One loop iteration, after the waiting: copy the frame at its timestamp into
the `recent_frames` mapping (a Python dict keyed by timestamp, modelled as an
association list with unique keys), then delete every stored key `k` with
`now - k > 2`. -/

/-- The pruning loop of `FrameTracker.run` (lines 45-48): delete every entry
whose key `k` satisfies `now - k > 2`. -/
def prune_recent_frames (now : ℚ) (frames : List (ℚ × Frame)) : List (ℚ × Frame) :=
  frames.filter (fun kv => !decide (now - kv.1 > 2))

/-- `recent_frames[frame_time] = frame` (line 42): dict assignment, replacing
the value if the key is present and appending otherwise. -/
def upsertFrame (frames : List (ℚ × Frame)) (t : ℚ) (f : Frame) : List (ℚ × Frame) :=
  if frames.any (fun kv => kv.1 == t) then
    frames.map (fun kv => if kv.1 == t then (t, f) else kv)
  else
    frames ++ [(t, f)]

/-- The tail of one `FrameTracker.run` iteration (lines 42-48): record the
copied frame at its timestamp, then prune against `now`. -/
def frameTrackerIteration (now t : ℚ) (f : Frame) (frames : List (ℚ × Frame)) :
    List (ℚ × Frame) :=
  prune_recent_frames now (upsertFrame frames t f)

/-! ## CameraCapture (`CameraCapture.run`, lines 85-112)

One iteration of the capture loop, as a function of this iteration's inputs:
the subprocess poll result, the bytes returned by the stream read, the frame
counter before the iteration, and the configuration.  The outcome is either a
`break` out of the loop, a `continue` (frame-stride skip), a write of a
reshaped frame into the shared buffer, or an uncaught exception from the
numpy reshape. -/

inductive CaptureOutcome
  /-- the loop `break`s: the thread exits cleanly -/
  | exitLoop
  /-- `continue`: the frame is dropped by the `take_frame` stride -/
  | skip
  /-- the raster is written into the shared buffer with the given timestamp -/
  | wrote (f : Frame) (t : ℚ)
  /-- an uncaught exception escapes the loop (reshape size mismatch) -/
  | error
deriving DecidableEq

/-- `np.frombuffer(raw, uint8).reshape(frame_shape)` (lines 105-109): the
reshape succeeds exactly when the byte count equals the element count
`frame_size` of the target shape; otherwise numpy raises `ValueError`. -/
def reshape (raw : List ℕ) (frame_size : ℕ) : Option Frame :=
  if raw.length = frame_size then some raw else none

/-- One iteration of `CameraCapture.run` (lines 87-112).  `pollResult` is
`ffmpeg_process.poll()` (`none` while the subprocess runs), `raw` the bytes
returned by `stdout.read(frame_size)`, `frame_num` the counter value before
the iteration, `now` the wall clock used for the buffer timestamp. -/
def captureStep (pollResult : Option ℤ) (raw : List ℕ)
    (frame_num take_frame frame_size : ℕ) (now : ℚ) : CaptureOutcome :=
  if pollResult ≠ none then
    CaptureOutcome.exitLoop
  else if raw.length = 0 then
    CaptureOutcome.exitLoop
  else
    let fn := frame_num + 1
    if fn % take_frame ≠ 0 then
      CaptureOutcome.skip
    else
      match reshape raw frame_size with
      | none => CaptureOutcome.error
      | some f => CaptureOutcome.wrote f now

/-! ## ObjectAggregator (`Camera.add_objects`, lines 262-312)

The merged per-region object rules (built once in `Camera.__init__`) give,
for each object label a region knows about, an optional `min_area`,
`max_area` and `threshold`; an absent key means the code's `.get` default is
used. -/

/-- One entry of a region's merged `objects` configuration: the values that
`obj_settings.get('min_area', ...)` etc. may find. -/
structure ObjSettings where
  min_area : Option ℤ
  max_area : Option ℤ
  threshold : Option ℚ
deriving DecidableEq

/-- A detection region (`self.regions[i]`): square crop geometry plus the
merged per-label rules. -/
structure Region where
  size : ℤ
  x_offset : ℤ
  y_offset : ℤ
  objects : List (String × ObjSettings)
deriving DecidableEq

/-- `object_name in region['objects']` / `region['objects'][object_name]`:
dictionary lookup on the merged rules. -/
def lookupSettings (rules : List (String × ObjSettings)) (name : String) :
    Option ObjSettings :=
  (rules.find? (fun kv => kv.1 == name)).map (fun kv => kv.2)

/-- A normalized detection box `obj['box']`, coordinates in `[0,1]`. -/
structure Box where
  x0 : ℚ
  y0 : ℚ
  x1 : ℚ
  y1 : ℚ
deriving DecidableEq

/-- A raw detection as delivered to `add_objects`. -/
structure RawObj where
  region_id : ℕ
  box : Box
  name : String
  score : ℚ
deriving DecidableEq

/-- A detection after `add_objects` has added the absolute coordinates and
the area (the dict after `obj.update({...})` and `obj['area'] = ...`). -/
structure DetObj where
  region_id : ℕ
  box : Box
  name : String
  score : ℚ
  xmin : ℤ
  ymin : ℤ
  xmax : ℤ
  ymax : ℤ
  area : ℤ
deriving DecidableEq

/-- Used only when `obj['region_id']` is out of range, which raises
`IndexError` in Python; no theorem below reaches it. -/
def defaultRegion : Region :=
  { size := 0, x_offset := 0, y_offset := 0, objects := [] }

/-- `region = self.regions[obj['region_id']]` (line 268). -/
def regionOf (regions : List Region) (obj : RawObj) : Region :=
  regions.getD obj.region_id defaultRegion

/-- Lines 271-279: scale each normalized coordinate by the region size, add
the region offset, truncate to `int`, and derive the area. -/
def computeObj (regions : List Region) (obj : RawObj) : DetObj :=
  let region := regionOf regions obj
  let xmin := pyInt (obj.box.x0 * region.size + region.x_offset)
  let ymin := pyInt (obj.box.y0 * region.size + region.y_offset)
  let xmax := pyInt (obj.box.x1 * region.size + region.x_offset)
  let ymax := pyInt (obj.box.y1 * region.size + region.y_offset)
  { region_id := obj.region_id, box := obj.box, name := obj.name,
    score := obj.score, xmin := xmin, ymin := ymin, xmax := xmax, ymax := ymax,
    area := (xmax - xmin) * (ymax - ymin) }

/-- The object-detection mask: a single-channel image as a list of rows. -/
abbrev Mask := List (List ℕ)

/-- `self.mask[y][x]` with Python indexing. -/
def maskAt (mask : Mask) (y x : ℤ) : ℕ :=
  pyIndex (pyIndex mask [] y) 0 x

/-- `y_location = min(int(obj['ymax']), len(self.mask)-1)` (line 302). -/
def repY (mask : Mask) (d : DetObj) : ℤ :=
  min d.ymax ((mask.length : ℤ) - 1)

/-- `x_location = min(int((obj['xmax']-obj['xmin'])/2.0)+obj['xmin'],
len(self.mask[0])-1)` (line 303). -/
def repX (mask : Mask) (d : DetObj) : ℤ :=
  min (pyInt (((d.xmax - d.xmin : ℤ) : ℚ) / 2) + d.xmin)
      (((mask.headD []).length : ℤ) - 1)

/-- One pass of the `for obj in objects` body (lines 266-309): `some d` when
the detection is appended to `detected_objects`, `none` when a `continue`
skips it.  The filter chain runs only when the label has merged rules. -/
def process_object (mask : Mask) (regions : List Region) (obj : RawObj) :
    Option DetObj :=
  match lookupSettings (regionOf regions obj).objects obj.name with
  | none => some (computeObj regions obj)
  | some s =>
    if s.min_area.getD (-1) > (computeObj regions obj).area then none
    else if s.max_area.getD ((regionOf regions obj).size ^ 2)
              < (computeObj regions obj).area then none
    else if s.threshold.getD 0 > (computeObj regions obj).score then none
    else if maskAt mask (repY mask (computeObj regions obj))
                (repX mask (computeObj regions obj)) = 0 then none
    else some (computeObj regions obj)

/-- Observable events of one `add_objects` call: appends to the shared
`detected_objects` list and the `objects_parsed.notify_all()` broadcast. -/
inductive AddEvent
  | append (d : DetObj)
  | notifyAll
deriving DecidableEq

/-- The `for obj in objects` loop (lines 266-309): returns the final
`detected_objects` list and the append events in order. -/
def add_objects_loop (mask : Mask) (regions : List Region) :
    List DetObj → List RawObj → List DetObj × List AddEvent
  | detected, [] => (detected, [])
  | detected, o :: rest =>
    match process_object mask regions o with
    | some d =>
      let r := add_objects_loop mask regions (detected ++ [d]) rest
      (r.1, AddEvent.append d :: r.2)
    | none => add_objects_loop mask regions detected rest

/-- `Camera.add_objects` (lines 262-312): early return on an empty batch;
otherwise process every detection and then notify `objects_parsed` once. -/
def add_objects (mask : Mask) (regions : List Region) (detected : List DetObj)
    (objs : List RawObj) : List DetObj × List AddEvent :=
  if objs.length = 0 then (detected, [])
  else
    let r := add_objects_loop mask regions detected objs
    (r.1, r.2 ++ [AddEvent.notifyAll])

/-! ## RenderCache (`Camera.get_current_frame_with_objects`, lines 317-355)

The drawing and encoding pipeline (`draw_box_with_label`, `cv2.rectangle`,
`cv2.putText`, `cv2.cvtColor`, `cv2.imencode`) consists of external library
calls outside this repository; it is abstracted as an arbitrary pure function
`render` of the data the code feeds it: the copied frame, the copied
detected-object list, and the snapshot timestamp.  The cache logic itself is
translated exactly. -/

/-- `self.cached_frame_with_objects` (lines 149-152, 350-353). -/
structure CacheEntry where
  frame_bytes : List ℕ
  frame_time : ℚ
deriving DecidableEq

/-- The camera state `get_current_frame_with_objects` reads and writes. -/
structure CamView where
  detected_objects : List DetObj
  current_frame : Frame
  frame_time : ℚ
  cached : CacheEntry
deriving DecidableEq

/-- `Camera.get_current_frame_with_objects` (lines 317-355).  Returns the
encoded bytes, the camera state after the call, and whether the
render-and-encode path (lines 329-348) ran. -/
def get_current_frame_with_objects
    (render : Frame → List DetObj → ℚ → List ℕ) (st : CamView) :
    List ℕ × CamView × Bool :=
  let detected_objects := st.detected_objects
  let frame := st.current_frame
  let frame_time := st.frame_time
  if frame_time = st.cached.frame_time then
    (st.cached.frame_bytes, st, false)
  else
    let frame_bytes := render frame detected_objects frame_time
    (frame_bytes,
     { st with cached := { frame_bytes := frame_bytes, frame_time := frame_time } },
     true)

/-- `self.frame_time = mp.Value('d', 0.0)` (line 140). -/
def initialFrameTime : ℚ := 0

/-- The initial render cache (lines 149-152): empty bytes, time `0`. -/
def initialCachedFrame : CacheEntry :=
  { frame_bytes := [], frame_time := 0 }

/-! ## Concrete fixtures

Configurations and detections used by the concrete parts of the theorems:
they instantiate the spec's worked examples (region size 100 at offset
(50,20) with box (0.1,0.2,0.5,0.6); score 0.3 against thresholds 0.5 and
0.2; masks of value 0 and 255). -/

/-- The region of the spec's coordinate example: size 100, offset (50,20),
no object rules. -/
def demoRegion : Region :=
  { size := 100, x_offset := 50, y_offset := 20, objects := [] }

/-- The detection of the spec's coordinate example: normalized box
(0.1, 0.2, 0.5, 0.6). -/
def demoBoxObj : RawObj :=
  { region_id := 0, box := { x0 := 1/10, y0 := 1/5, x1 := 1/2, y1 := 3/5 },
    name := "person", score := 1/2 }

/-- A region of size 10 at the origin whose only rule sets a score threshold
`t` for the label `person`. -/
def threshRegion (t : ℚ) : Region :=
  { size := 10, x_offset := 0, y_offset := 0,
    objects := [("person",
      { min_area := none, max_area := none, threshold := some t })] }

/-- A region of size 10 at the origin with no object rules. -/
def noRulesRegion : Region :=
  { size := 10, x_offset := 0, y_offset := 0, objects := [] }

/-- A `person` detection with score 0.3 and normalized box (0,0,0.5,0.5);
in a size-10 region at the origin its absolute box is (0,0,5,5), its
representative point (y = 5, x = 2). -/
def demoDetection : RawObj :=
  { region_id := 0, box := { x0 := 0, y0 := 0, x1 := 1/2, y1 := 1/2 },
    name := "person", score := 3/10 }

/-- A 6-row, 3-column mask of value 255 everywhere (the no-exclusion
default). -/
def mask255 : Mask :=
  [[255, 255, 255], [255, 255, 255], [255, 255, 255],
   [255, 255, 255], [255, 255, 255], [255, 255, 255]]

/-- A 6-row, 3-column mask of value 0 everywhere (all excluded). -/
def maskZero : Mask :=
  [[0, 0, 0], [0, 0, 0], [0, 0, 0], [0, 0, 0], [0, 0, 0], [0, 0, 0]]

/-! ## Theorems -/

/-- The score carried through the coordinate computation is the raw
detection's score (the code mutates the same dict). -/
theorem computeObj_score (regions : List Region) (obj : RawObj) :
    (computeObj regions obj).score = obj.score := rfl

/-- Unfolding of `process_object` when the label has merged rules `s`. -/
theorem process_object_some_rules (mask : Mask) (regions : List Region)
    (obj : RawObj) (s : ObjSettings)
    (hs : lookupSettings (regionOf regions obj).objects obj.name = some s) :
    process_object mask regions obj
      = if s.min_area.getD (-1) > (computeObj regions obj).area then none
        else if s.max_area.getD ((regionOf regions obj).size ^ 2)
                  < (computeObj regions obj).area then none
        else if s.threshold.getD 0 > (computeObj regions obj).score then none
        else if maskAt mask (repY mask (computeObj regions obj))
                    (repX mask (computeObj regions obj)) = 0 then none
        else some (computeObj regions obj) := by
  unfold process_object
  rw [hs]

/-- Unfolding of `process_object` when the label has no merged rules. -/
theorem process_object_no_rules (mask : Mask) (regions : List Region)
    (obj : RawObj)
    (h : lookupSettings (regionOf regions obj).objects obj.name = none) :
    process_object mask regions obj = some (computeObj regions obj) := by
  unfold process_object
  rw [h]

/-- Evaluation of the coordinate computation for `demoDetection` in any
single size-10 region at the origin. -/
theorem computeObj_demoDetection (r : Region) (h10 : r.size = 10)
    (hx : r.x_offset = 0) (hy : r.y_offset = 0) :
    computeObj [r] demoDetection
      = { region_id := 0, box := demoDetection.box, name := "person",
          score := 3/10, xmin := 0, ymin := 0, xmax := 5, ymax := 5,
          area := 25 } := by
  simp [computeObj, regionOf, demoDetection, pyInt, h10, hx, hy]
  norm_num

/-- C2: for every valid raw raster written into the shared frame buffer by
the capture actor's lock-protected critical section, a subsequent
lock-protected read returns exactly that raster and that timestamp: after any
finite sequence of atomic writes ending with `(r, t)`, `readCopy` yields
`(r, t)`, never a mix of fields from different writes. -/
theorem shared_frame_buffer_read_after_write (init : SharedFrameBuffer)
    (ws : List (Frame × ℚ)) (r : Frame) (t : ℚ) :
    readCopy (runWrites init (ws ++ [(r, t)])) = (r, t) := by
  simp [runWrites, List.foldl_append, writeFrame, readCopy]

/-- C1: after the prune step of a `FrameTracker.run` iteration, every
retained entry has age at most 2 seconds against the iteration's wall clock
`now`, and every entry of the pre-prune map whose age is under 2 seconds is
retained. -/
theorem frame_tracker_prune_age_invariant (now t : ℚ) (f : Frame)
    (frames : List (ℚ × Frame)) :
    (∀ kv ∈ frameTrackerIteration now t f frames, now - kv.1 ≤ 2)
    ∧ (∀ kv ∈ upsertFrame frames t f, now - kv.1 < 2 →
        kv ∈ frameTrackerIteration now t f frames) := by
  constructor
  · intro kv hkv
    simp only [frameTrackerIteration, prune_recent_frames, List.mem_filter,
      Bool.not_eq_true', decide_eq_false_iff_not, not_lt] at hkv
    exact hkv.2
  · intro kv hkv hage
    simp only [frameTrackerIteration, prune_recent_frames, List.mem_filter,
      Bool.not_eq_true', decide_eq_false_iff_not, not_lt]
    exact ⟨hkv, le_of_lt hage⟩

/-- Witness for C1 at a concrete iteration: with `now = 2`, the entry keyed
`1` (age `1 < 2`) survives the prune, and the theorem bounds its age. -/
theorem frame_tracker_prune_age_invariant_witness :
    ((1 : ℚ), ([] : Frame)) ∈ frameTrackerIteration 2 2 [] [(1, [])]
    ∧ (2 : ℚ) - 1 ≤ 2 := by
  have hmem : ((1 : ℚ), ([] : Frame)) ∈ upsertFrame [(1, [])] 2 [] := by decide
  have h1 : ((1 : ℚ), ([] : Frame)) ∈ frameTrackerIteration 2 2 [] [(1, [])] :=
    (frame_tracker_prune_age_invariant 2 2 [] [(1, [])]).2 (1, []) hmem (by norm_num)
  exact ⟨h1, (frame_tracker_prune_age_invariant 2 2 [] [(1, [])]).1 (1, []) h1⟩

/-- C8: when the read on the decoder stream returns zero bytes, the capture
iteration takes the same clean `break` path as a subprocess exit: no write to
the frame buffer, no uncaught error. -/
theorem capture_empty_read_exits (raw : List ℕ) (fn tf fs : ℕ) (now : ℚ)
    (c : ℤ) (h : raw.length = 0) :
    captureStep none raw fn tf fs now = CaptureOutcome.exitLoop
    ∧ captureStep none raw fn tf fs now = captureStep (some c) raw fn tf fs now
    ∧ (∀ f t, captureStep none raw fn tf fs now ≠ CaptureOutcome.wrote f t)
    ∧ captureStep none raw fn tf fs now ≠ CaptureOutcome.error := by
  simp [captureStep, h]

/-- Witness for C8: a zero-byte read with the subprocess still running exits
the loop. -/
theorem capture_empty_read_exits_witness :
    ([] : List ℕ).length = 0
    ∧ captureStep none [] 0 1 4 0 = CaptureOutcome.exitLoop :=
  ⟨rfl, (capture_empty_read_exits [] 0 1 4 0 0 rfl).1⟩

/-- C9: before any frame has been captured, the shared timestamp still holds
its initial value `0.0`, which equals the render cache's initial
`frame_time`, so `get_current_frame_with_objects` takes the cache-hit branch
and returns the initial empty `frame_bytes` without rendering. -/
theorem initial_state_cache_hit (render : Frame → List DetObj → ℚ → List ℕ)
    (objs : List DetObj) (frame : Frame) :
    get_current_frame_with_objects render
      { detected_objects := objs, current_frame := frame,
        frame_time := initialFrameTime, cached := initialCachedFrame }
      = ([], { detected_objects := objs, current_frame := frame,
               frame_time := initialFrameTime, cached := initialCachedFrame },
         false) := by
  simp [get_current_frame_with_objects, initialFrameTime, initialCachedFrame]

/-- C6: two `get_current_frame_with_objects` calls with no intervening
frame-buffer write return byte-identical output, the second call is a cache
hit that renders nothing and leaves the state unchanged; and whenever the
cached timestamp equals the snapshot timestamp the cached bytes come back
unchanged with no render. -/
theorem render_cache_idempotent (render : Frame → List DetObj → ℚ → List ℕ)
    (st : CamView) :
    (get_current_frame_with_objects render
        ((get_current_frame_with_objects render st).2.1)).1
      = (get_current_frame_with_objects render st).1
    ∧ (get_current_frame_with_objects render
        ((get_current_frame_with_objects render st).2.1)).2.2 = false
    ∧ (get_current_frame_with_objects render
        ((get_current_frame_with_objects render st).2.1)).2.1
      = (get_current_frame_with_objects render st).2.1
    ∧ (st.frame_time = st.cached.frame_time →
        get_current_frame_with_objects render st
          = (st.cached.frame_bytes, st, false)) := by
  by_cases h : st.frame_time = st.cached.frame_time
  · simp [get_current_frame_with_objects, h]
  · simp [get_current_frame_with_objects, h]

/-- Witness for C6 at a concrete state whose cached timestamp matches the
frame timestamp: the cached bytes are returned as-is without rendering. -/
theorem render_cache_idempotent_witness :
    get_current_frame_with_objects (fun _ _ _ => [])
      { detected_objects := [], current_frame := [], frame_time := 0,
        cached := { frame_bytes := [2], frame_time := 0 } }
      = ([2],
         { detected_objects := [], current_frame := [], frame_time := 0,
           cached := { frame_bytes := [2], frame_time := 0 } },
         false) :=
  (render_cache_idempotent (fun _ _ _ => [])
    { detected_objects := [], current_frame := [], frame_time := 0,
      cached := { frame_bytes := [2], frame_time := 0 } }).2.2.2 rfl

/-- C10 as stated is false: a read of strictly more than zero but fewer than
`frame_size` bytes on a frame that the `take_frame` stride drops hits the
`continue` before the reshape, so the thread neither raises nor writes nor
exits; here 1 byte is read with `frame_size = 4` and `take_frame = 2` on an
odd frame and the outcome is a plain skip. -/
theorem capture_short_read_counterexample :
    0 < ([7] : List ℕ).length ∧ ([7] : List ℕ).length < 4
    ∧ captureStep none [7] 0 2 4 0 = CaptureOutcome.skip := by
  refine ⟨by decide, by decide, ?_⟩
  simp [captureStep]

/-- C10 amended: a read of strictly more than zero but fewer than
`frame_size` bytes makes the reshape fail with an uncaught exception on every
frame the stride keeps; and only a read of exactly `frame_size` bytes is ever
written into the shared frame buffer. -/
theorem capture_short_read_amended :
    (∀ (raw : List ℕ) (fn tf fs : ℕ) (now : ℚ),
      0 < raw.length → raw.length < fs → (fn + 1) % tf = 0 →
      captureStep none raw fn tf fs now = CaptureOutcome.error)
    ∧ (∀ (poll : Option ℤ) (raw : List ℕ) (fn tf fs : ℕ) (now : ℚ)
         (f : Frame) (t : ℚ),
      captureStep poll raw fn tf fs now = CaptureOutcome.wrote f t →
      raw.length = fs) := by
  constructor
  · intro raw fn tf fs now h0 h1 hk
    have hne : raw.length ≠ 0 := Nat.pos_iff_ne_zero.mp h0
    have hfs : raw.length ≠ fs := Nat.ne_of_lt h1
    simp [captureStep, reshape, hne, hfs, hk]
  · intro poll raw fn tf fs now f t h
    simp only [captureStep, reshape] at h
    split_ifs at h
    simp_all

/-- Witness for C10 amended: a 1-byte read (`frame_size = 4`) on a kept frame
makes the iteration end in the reshape error. -/
theorem capture_short_read_amended_witness :
    captureStep none [7] 1 2 4 0 = CaptureOutcome.error :=
  capture_short_read_amended.1 [7] 1 2 4 0 (by decide) (by decide) (by decide)

/-- The `for` loop of `add_objects` issues no `notify_all`: notification
happens only after the loop. -/
theorem add_objects_loop_no_notify (mask : Mask) (regions : List Region)
    (objs : List RawObj) :
    ∀ detected : List DetObj,
      AddEvent.notifyAll ∉ (add_objects_loop mask regions detected objs).2 := by
  induction objs with
  | nil => intro detected; simp [add_objects_loop]
  | cons o rest ih =>
    intro detected
    cases hpo : process_object mask regions o with
    | some d => simp [add_objects_loop, hpo, ih]
    | none => simp [add_objects_loop, hpo, ih]

/-- C7: `add_objects` on an empty batch is a no-op (the detected-object list
is unchanged, no event is issued); on a non-empty batch the `objects_parsed`
condition is notified exactly once, as the last event after the entire batch
has been processed. -/
theorem add_objects_empty_noop_notify_once (mask : Mask)
    (regions : List Region) (detected : List DetObj) (objs : List RawObj) :
    add_objects mask regions detected [] = (detected, [])
    ∧ (objs ≠ [] →
        ((add_objects mask regions detected objs).2.count AddEvent.notifyAll = 1
         ∧ (add_objects mask regions detected objs).2.getLast?
              = some AddEvent.notifyAll)) := by
  refine ⟨by simp [add_objects], ?_⟩
  intro hne
  have hlen : ¬objs.length = 0 := by simpa using hne
  simp only [add_objects, if_neg hlen]
  constructor
  · rw [List.count_append]
    simp [List.count_eq_zero.mpr (add_objects_loop_no_notify mask regions objs detected)]
  · exact List.getLast?_concat _

/-- Witness for C7: a singleton batch produces exactly one notification. -/
theorem add_objects_empty_noop_notify_once_witness :
    (add_objects mask255 [noRulesRegion] [] [demoDetection]).2.count
        AddEvent.notifyAll = 1 :=
  ((add_objects_empty_noop_notify_once mask255 [noRulesRegion] []
      [demoDetection]).2 (by simp)).1

/-- C4: `add_objects` computes the absolute box by scaling each normalized
coordinate by the region size, adding the region offset and truncating to
int, and the area as `(xmax-xmin)*(ymax-ymin)`; for region size 100, offset
(50,20) and normalized box (0.1,0.2,0.5,0.6) this gives box (60,40,100,80)
and area 1600. -/
theorem add_objects_coordinate_mapping :
    (∀ (regions : List Region) (obj : RawObj),
      (computeObj regions obj).xmin
          = pyInt (obj.box.x0 * (regionOf regions obj).size
                    + (regionOf regions obj).x_offset)
      ∧ (computeObj regions obj).ymin
          = pyInt (obj.box.y0 * (regionOf regions obj).size
                    + (regionOf regions obj).y_offset)
      ∧ (computeObj regions obj).xmax
          = pyInt (obj.box.x1 * (regionOf regions obj).size
                    + (regionOf regions obj).x_offset)
      ∧ (computeObj regions obj).ymax
          = pyInt (obj.box.y1 * (regionOf regions obj).size
                    + (regionOf regions obj).y_offset)
      ∧ (computeObj regions obj).area
          = ((computeObj regions obj).xmax - (computeObj regions obj).xmin)
            * ((computeObj regions obj).ymax - (computeObj regions obj).ymin))
    ∧ computeObj [demoRegion] demoBoxObj
        = { region_id := 0, box := demoBoxObj.box, name := "person",
            score := 1/2, xmin := 60, ymin := 40, xmax := 100, ymax := 80,
            area := 1600 } := by
  constructor
  · intro regions obj
    exact ⟨rfl, rfl, rfl, rfl, rfl⟩
  · simp [computeObj, regionOf, demoRegion, demoBoxObj, pyInt]
    norm_num

/-- C3: for a detection whose label has region rules and whose representative
point is not masked out, `add_objects` rejects it exactly when the configured
`min_area` exceeds its area, or the configured `max_area` (default: region
size squared) is below its area, or the configured `threshold` (default 0)
exceeds its score; a label without rules is accepted unconditionally; score
0.3 is rejected under threshold 0.5 and accepted under threshold 0.2. -/
theorem add_objects_region_rule_filter :
    (∀ (mask : Mask) (regions : List Region) (obj : RawObj) (s : ObjSettings),
      lookupSettings (regionOf regions obj).objects obj.name = some s →
      maskAt mask (repY mask (computeObj regions obj))
          (repX mask (computeObj regions obj)) ≠ 0 →
      (process_object mask regions obj = none ↔
        s.min_area.getD (-1) > (computeObj regions obj).area
        ∨ s.max_area.getD ((regionOf regions obj).size ^ 2)
            < (computeObj regions obj).area
        ∨ s.threshold.getD 0 > obj.score))
    ∧ (∀ (mask : Mask) (regions : List Region) (obj : RawObj),
        lookupSettings (regionOf regions obj).objects obj.name = none →
        process_object mask regions obj = some (computeObj regions obj))
    ∧ process_object mask255 [threshRegion (1/2)] demoDetection = none
    ∧ process_object mask255 [threshRegion (1/5)] demoDetection
        = some (computeObj [threshRegion (1/5)] demoDetection) := by
  refine ⟨?_, ?_, ?_, ?_⟩
  · intro mask regions obj s hs hmask
    rw [process_object_some_rules mask regions obj s hs,
        computeObj_score regions obj]
    split_ifs with h1 h2 h3 h4 <;> simp_all
  · exact process_object_no_rules
  · rw [process_object_some_rules mask255 [threshRegion (1/2)] demoDetection
          { min_area := none, max_area := none, threshold := some (1/2) }
          (by simp [lookupSettings, regionOf, threshRegion, demoDetection]),
        computeObj_demoDetection (threshRegion (1/2)) rfl rfl rfl]
    norm_num
  · have hY : repY mask255 (computeObj [threshRegion (1/5)] demoDetection) = 5 := by
      rw [computeObj_demoDetection (threshRegion (1/5)) rfl rfl rfl]
      simp [repY, mask255]
    have hX : repX mask255 (computeObj [threshRegion (1/5)] demoDetection) = 2 := by
      rw [computeObj_demoDetection (threshRegion (1/5)) rfl rfl rfl]
      simp [repX, mask255, pyInt]
      norm_num
    rw [process_object_some_rules mask255 [threshRegion (1/5)] demoDetection
          { min_area := none, max_area := none, threshold := some (1/5) }
          (by simp [lookupSettings, regionOf, threshRegion, demoDetection]),
        hY, hX]
    have hm : maskAt mask255 5 2 = 255 := by decide
    have hsize : (regionOf [threshRegion (1/5)] demoDetection).size = 10 := rfl
    rw [computeObj_demoDetection (threshRegion (1/5)) rfl rfl rfl, hm, hsize]
    norm_num

/-- Witness for C3: for a threshold-0.9 rule over an unmasked point, the
filter characterization yields rejection of the score-0.3 detection. -/
theorem add_objects_region_rule_filter_witness :
    process_object mask255 [threshRegion (9/10)] demoDetection = none := by
  have hm : maskAt mask255
      (repY mask255 (computeObj [threshRegion (9/10)] demoDetection))
      (repX mask255 (computeObj [threshRegion (9/10)] demoDetection)) ≠ 0 := by
    have hY : repY mask255 (computeObj [threshRegion (9/10)] demoDetection) = 5 := by
      rw [computeObj_demoDetection (threshRegion (9/10)) rfl rfl rfl]
      simp [repY, mask255]
    have hX : repX mask255 (computeObj [threshRegion (9/10)] demoDetection) = 2 := by
      rw [computeObj_demoDetection (threshRegion (9/10)) rfl rfl rfl]
      simp [repX, mask255, pyInt]
      norm_num
    rw [hY, hX]
    decide
  refine (add_objects_region_rule_filter.1 mask255 [threshRegion (9/10)]
      demoDetection { min_area := none, max_area := none, threshold := some (9/10) }
      (by simp [lookupSettings, regionOf, threshRegion, demoDetection]) hm).mpr ?_
  refine Or.inr (Or.inr ?_)
  show ((ObjSettings.mk none none (some (9/10))).threshold.getD 0 > demoDetection.score)
  simp [demoDetection]
  norm_num

/-- C5 as stated is false: the mask check runs only when the detection's
label has region rules, so a detection whose label has no rules is appended
even though the mask value at its representative point is 0. -/
theorem mask_rejection_counterexample :
    maskAt maskZero (repY maskZero (computeObj [noRulesRegion] demoDetection))
        (repX maskZero (computeObj [noRulesRegion] demoDetection)) = 0
    ∧ process_object maskZero [noRulesRegion] demoDetection
        = some (computeObj [noRulesRegion] demoDetection) := by
  constructor
  · have hY : repY maskZero (computeObj [noRulesRegion] demoDetection) = 5 := by
      rw [computeObj_demoDetection noRulesRegion rfl rfl rfl]
      simp [repY, maskZero]
    have hX : repX maskZero (computeObj [noRulesRegion] demoDetection) = 2 := by
      rw [computeObj_demoDetection noRulesRegion rfl rfl rfl]
      simp [repX, maskZero, pyInt]
      norm_num
    rw [hY, hX]
    decide
  · exact process_object_no_rules maskZero [noRulesRegion] demoDetection
      (by simp [lookupSettings, regionOf, noRulesRegion, demoDetection])

/-- C5 amended: for every detection whose label has region rules and which
passes the area and score filters, `add_objects` rejects it exactly when the
mask value at its clamped representative point is 0 (so a value of 255
accepts); the decision depends only on that mask value, never on the
clamping itself. -/
theorem mask_rejection_amended :
    ∀ (mask : Mask) (regions : List Region) (obj : RawObj) (s : ObjSettings),
      lookupSettings (regionOf regions obj).objects obj.name = some s →
      ¬(s.min_area.getD (-1) > (computeObj regions obj).area) →
      ¬(s.max_area.getD ((regionOf regions obj).size ^ 2)
          < (computeObj regions obj).area) →
      ¬(s.threshold.getD 0 > obj.score) →
      (process_object mask regions obj = none ↔
        maskAt mask (repY mask (computeObj regions obj))
            (repX mask (computeObj regions obj)) = 0) := by
  intro mask regions obj s hs h1 h2 h3
  rw [process_object_some_rules mask regions obj s hs,
      computeObj_score regions obj]
  split_ifs with g1 g2 g3 g4 <;> simp_all

/-- Witness for C5 amended: the score-0.3 detection under threshold 0.2,
which passes every area and score filter, is rejected over the all-zero
mask. -/
theorem mask_rejection_amended_witness :
    process_object maskZero [threshRegion (1/5)] demoDetection = none := by
  have hY : repY maskZero (computeObj [threshRegion (1/5)] demoDetection) = 5 := by
    rw [computeObj_demoDetection (threshRegion (1/5)) rfl rfl rfl]
    simp [repY, maskZero]
  have hX : repX maskZero (computeObj [threshRegion (1/5)] demoDetection) = 2 := by
    rw [computeObj_demoDetection (threshRegion (1/5)) rfl rfl rfl]
    simp [repX, maskZero, pyInt]
    norm_num
  refine (mask_rejection_amended maskZero [threshRegion (1/5)] demoDetection
      { min_area := none, max_area := none, threshold := some (1/5) }
      (by simp [lookupSettings, regionOf, threshRegion, demoDetection])
      ?_ ?_ ?_).mpr ?_
  · rw [computeObj_demoDetection (threshRegion (1/5)) rfl rfl rfl]
    decide
  · have hsize : (regionOf [threshRegion (1/5)] demoDetection).size = 10 := rfl
    rw [computeObj_demoDetection (threshRegion (1/5)) rfl rfl rfl, hsize]
    decide
  · show ¬((ObjSettings.mk none none (some (1/5))).threshold.getD 0
        > demoDetection.score)
    simp [demoDetection]
    norm_num
  · rw [hY, hX]
    decide
